import Mathlib

/-!
# Verification of the swap relation builders (`swapTypes.go`)

Shallow embedding of `zecrey/twistededwards/tebn254/zecrey/swapTypes.go`:
the two relation-construction entry points `NewSwapRelationPart1` and
`NewSwapRelationPart2`, together with the cryptographic primitives they call
(curve group operations, twisted ElGamal encryption, Pedersen commitment),
which live elsewhere in the repository and are modelled from the spec.

Modelling conventions:
* The curve group is a prime-order cyclic group with two independent
  generators `G` and `H` (spec §2).  We model it generically as the free
  `ZMod q`-module on the two generators: a point is a coordinate pair
  `(a, b)` standing for `a·G + b·H`, with `G = (1,0)` and `H = (0,1)`.
  The group order is the parameter `q`.
* Go `*big.Int` (and other pointer) arguments that may be `nil` become
  `Option`-typed arguments; dereferencing `nil` is a Go runtime panic,
  rendered as the distinguished outcome `SwapRes.crash`.
* `curve.RandomValue()` draws are passed in explicitly: `rStar` is the
  ElGamal randomness and `rs` the stream of per-bit range-proof blindings,
  consumed in order.
-/

/-- Modelled from the spec: the repository constant `RangeMaxBits` (the range
proof bit width `N` of spec §4.3) is declared outside the given sources; its
concrete value is irrelevant to every claim below. -/
def RangeMaxBits : ℕ := 32

/-- Modelled from the spec: curve points of the prime-order group (spec §2,
"Curve Group" leaf, not among the given sources), in the generic-group model:
coordinates with respect to the two independent generators. -/
def GroupPt (q : ℕ) : Type := ZMod q × ZMod q

instance (q : ℕ) : DecidableEq (GroupPt q) :=
  instDecidableEqProd (α := ZMod q) (β := ZMod q)

/-- Modelled from the spec: the fixed generator `G` (spec §2), i.e. `1·G + 0·H`. -/
def Gpt (q : ℕ) : GroupPt q := (1, 0)

/-- Modelled from the spec: the fixed generator `H` (spec §2), i.e. `0·G + 1·H`. -/
def Hpt (q : ℕ) : GroupPt q := (0, 1)

/-- Modelled from the spec: `curve.Add` — point addition (spec §2). -/
def ptAdd (q : ℕ) (P Q : GroupPt q) : GroupPt q := (P.1 + Q.1, P.2 + Q.2)

/-- Modelled from the spec: `curve.Neg` — point negation (spec §2). -/
def ptNeg (q : ℕ) (P : GroupPt q) : GroupPt q := (-P.1, -P.2)

/-- Modelled from the spec: `curve.ScalarMul` — scalar multiplication; the
scalar acts through its residue modulo the group order (spec §3, "Scalar"). -/
def scalarMul (q : ℕ) (k : ℤ) (P : GroupPt q) : GroupPt q :=
  ((k : ZMod q) * P.1, (k : ZMod q) * P.2)

/-- Modelled from the spec: `curve.ScalarBaseMul` — scalar multiple of the
base generator `G` (spec §2). -/
def scalarBaseMul (q : ℕ) (k : ℤ) : GroupPt q := scalarMul q k (Gpt q)

/-- Extended-Euclid worker for `modInverse`: Bezout coefficient of the first
remainder, structurally recursive on explicit fuel. -/
def invAux : ℕ → ℕ → ℕ → ℤ → ℤ → ℤ
  | 0, _, _, s0, _ => s0
  | fuel + 1, r0, r1, s0, s1 =>
    if r1 = 0 then s0 else invAux fuel r1 (r0 % r1) s1 (s0 - ((r0 / r1 : ℕ) : ℤ) * s1)

/-- Modelled from the spec: `ffmath.ModInverse(a, Order)` (the `ffmath`
package is not among the given sources) — the multiplicative inverse of `a`
modulo the group order, used by the balance check `h^v = CR · CL^{-1/sk}`
(spec §4.1).  Computed by the extended Euclidean algorithm on `a mod q`
and `q`; the fuel `q + 2` dominates the number of division steps. -/
def modInverse (a : ℤ) (q : ℕ) : ℤ := invAux (q + 2) ((a % (q : ℤ)).toNat) q 1 0

/-- Twisted ElGamal ciphertext `{CL, CR}` (spec §3). -/
structure ElGamalEnc (q : ℕ) where
  CL : GroupPt q
  CR : GroupPt q
deriving DecidableEq

/-- Modelled from the spec: `twistedElgamal.Enc(value, randomness, pk)` (the
`twistedElgamal` package is not among the given sources) — `CL = pk^r`,
`CR = g^r · h^v` (spec §4.1). -/
def Enc (q : ℕ) (v r : ℤ) (pk : GroupPt q) : ElGamalEnc q :=
  { CL := scalarMul q r pk
    CR := ptAdd q (scalarMul q r (Gpt q)) (scalarMul q v (Hpt q)) }

/-- Modelled from the spec: `pedersen.Commit(blinding, value, G, H)` (the
`pedersen` package is not among the given sources) — `g^blinding · h^value`
(spec §4.2). -/
def Commit (q : ℕ) (blinding value : ℤ) (g h : GroupPt q) : GroupPt q :=
  ptAdd q (scalarMul q blinding g) (scalarMul q value h)

/-- Modelled from the spec: the embedded bit-decomposition range proof
(spec §4.3); an opaque payload never read by the relation builders. -/
structure ComRangeProof where
  unused : Unit

/-- The named errors returned by the relation builders (`swapTypes.go` and
spec §7), with the source's spelling. -/
inductive SwapErr where
  | ErrInvalidParams
  | ErrInconsistentPublicKey
  | ErrIncorrectBalance
  | ErrInsufficientBalance
  | ErrPostiveBStar
  | ErrInvalidSwapProof
deriving DecidableEq

/-- `SwapProofPart` of `swapTypes.go`: the transmittable half of one party's
proof.  Every Go pointer field is `Option`-typed. -/
structure SwapProofPart (q : ℕ) where
  Pt1 : Option (GroupPt q)
  Pt2 : Option (GroupPt q)
  A_pk : Option (GroupPt q)
  A_TDivCRprime : Option (GroupPt q)
  A_Pt1 : Option (GroupPt q)
  A_Pt2 : Option (GroupPt q)
  Z_rbar : Option ℤ
  Z_sk : Option ℤ
  Z_skInv : Option ℤ
  RangeProof : Option ComRangeProof
  BStar1 : Option ℤ
  BStar2 : Option ℤ
  Fee : Option ℤ
  RStar : Option ℤ
  CStar : Option (ElGamalEnc q)
  C : Option (ElGamalEnc q)
  ReceiverCStar : Option (ElGamalEnc q)
  ReceiverC : Option (ElGamalEnc q)
  ReceiverPk : Option (GroupPt q)
  G : Option (GroupPt q)
  H : Option (GroupPt q)
  Ht1 : Option (GroupPt q)
  Ht2 : Option (GroupPt q)
  TDivCRprime : Option (GroupPt q)
  CLprimeInv : Option (GroupPt q)
  T : Option (GroupPt q)
  Pk : Option (GroupPt q)
  Challenge : Option ℤ

/-- `SwapProofRelationPart` of `swapTypes.go`: one side's public statement and
private witness.  Fields that the builders always populate are plain values;
`Fee` stays `Option`-typed because `NewSwapRelationPart2` copies it verbatim
from the (possibly `nil`) `proof.Fee` pointer. -/
structure SwapProofRelationPart (q : ℕ) where
  C : ElGamalEnc q
  CStar : ElGamalEnc q
  ReceiverC : ElGamalEnc q
  ReceiverCStar : ElGamalEnc q
  ReceiverPk : GroupPt q
  T : GroupPt q
  Pk : GroupPt q
  Ht1 : GroupPt q
  Ht2 : GroupPt q
  Pt1 : GroupPt q
  Pt2 : GroupPt q
  G : GroupPt q
  H : GroupPt q
  FromTokenId : ℕ
  ToTokenId : ℕ
  TDivCRprime : GroupPt q
  CLprimeInv : GroupPt q
  BStarFrom : ℤ
  BStarTo : ℤ
  Fee : Option ℤ
  RStar : ℤ
  Sk : ℤ
  BPrime : ℤ
  RBar : ℤ
  Rs : Fin RangeMaxBits → ℤ

/-- Outcome of a relation-builder call: a relation, a named Go error, or a
runtime panic from dereferencing a `nil` pointer. -/
inductive SwapRes (q : ℕ) where
  | ok (rel : SwapProofRelationPart q)
  | error (e : SwapErr)
  | crash

/-- The blinding aggregation loop of `swapTypes.go` (lines 155–159 / 253–257):
`rBar` accumulates the first `RangeMaxBits` per-bit blindings. -/
def sumRs (rs : ℕ → ℤ) : ℤ :=
  (List.range RangeMaxBits).foldl (fun acc i => acc + rs i) 0

/-- `NewSwapRelationPart1` of `swapTypes.go` (lines 106–197).  The argument
order matches the source; the trailing `rStar` and `rs` supply the values of
the `curve.RandomValue()` draws in the order the source makes them. -/
def NewSwapRelationPart1 (q : ℕ) (C receiverC : Option (ElGamalEnc q))
    (pk receiverPk : Option (GroupPt q)) (b bStarFrom bStarTo sk : Option ℤ)
    (fromTokenId toTokenId : ℕ) (fee : Option ℤ)
    (rStar : ℤ) (rs : ℕ → ℤ) : SwapRes q :=
  match C, receiverC, pk, receiverPk, bStarFrom, bStarTo, sk, fee with
  | some c, some rc, some pkv, some rpkv, some bsF, some bsT, some skv, some feev =>
    if fromTokenId = 0 ∨ toTokenId = 0 ∨ fromTokenId = toTokenId ∨ feev < 0 then
      .error .ErrInvalidParams
    else if scalarBaseMul q skv ≠ pkv then
      .error .ErrInconsistentPublicKey
    else
      match b with
      | none => .crash
      | some bv =>
        if ptAdd q c.CR (ptNeg q (scalarMul q (modInverse skv q) c.CL)) ≠
            scalarMul q bv (Hpt q) then
          .error .ErrIncorrectBalance
        else if bv ≤ 0 then
          .error .ErrInsufficientBalance
        else if bsF ≤ 0 then
          .error .ErrPostiveBStar
        else
          if bv - bsF - feev < 0 then
            .error .ErrInsufficientBalance
          else
            .ok
              { C := c
                CStar := Enc q (-(bsF + feev)) rStar pkv
                ReceiverC := rc
                ReceiverCStar := Enc q (bsF + feev) rStar rpkv
                ReceiverPk := rpkv
                T := Commit q (sumRs rs % (q : ℤ)) (bv - bsF - feev) (Gpt q) (Hpt q)
                Pk := pkv
                G := Gpt q
                H := Hpt q
                Ht1 := scalarMul q (fromTokenId : ℤ) (Hpt q)
                Ht2 := scalarMul q (toTokenId : ℤ) (Hpt q)
                FromTokenId := fromTokenId
                ToTokenId := toTokenId
                TDivCRprime :=
                  ptAdd q (Commit q (sumRs rs % (q : ℤ)) (bv - bsF - feev) (Gpt q) (Hpt q))
                    (ptNeg q (ptAdd q c.CR (Enc q (-(bsF + feev)) rStar pkv).CR))
                CLprimeInv := ptNeg q (ptAdd q c.CL (Enc q (-(bsF + feev)) rStar pkv).CL)
                BStarFrom := bsF
                BStarTo := bsT
                Fee := some feev
                RStar := rStar
                Sk := skv
                BPrime := bv - bsF - feev
                RBar := sumRs rs % (q : ℤ)
                Rs := fun i => rs i
                Pt1 := scalarMul q skv (scalarMul q (fromTokenId : ℤ) (Hpt q))
                Pt2 := scalarMul q skv (scalarMul q (toTokenId : ℤ) (Hpt q)) }
  | _, _, _, _, _, _, _, _ => .error .ErrInvalidParams

/-- `NewSwapRelationPart2` of `swapTypes.go` (lines 199–295). -/
def NewSwapRelationPart2 (q : ℕ) (C receiverC : Option (ElGamalEnc q))
    (pk receiverPk : Option (GroupPt q)) (b sk : Option ℤ)
    (fromTokenId toTokenId : ℕ) (proof : Option (SwapProofPart q))
    (rStar : ℤ) (rs : ℕ → ℤ) : SwapRes q :=
  match C, receiverC, pk, receiverPk, sk, proof with
  | some c, some rc, some pkv, some rpkv, some skv, some pf =>
    if fromTokenId = 0 ∨ toTokenId = 0 ∨ fromTokenId = toTokenId ∨
        pf.Ht1 = none ∨ pf.Ht2 = none then
      .error .ErrInvalidParams
    else
      match pf.BStar1 with
      | none => .crash
      | some bs1 =>
        if bs1 ≤ 0 then .error .ErrInvalidParams
        else
          match pf.BStar2 with
          | none => .crash
          | some bs2 =>
            if bs2 ≤ 0 then .error .ErrInvalidParams
            else if scalarBaseMul q skv ≠ pkv then
              .error .ErrInconsistentPublicKey
            else if some (scalarMul q (fromTokenId : ℤ) (Hpt q)) ≠ pf.Ht1 ∨
                some (scalarMul q (toTokenId : ℤ) (Hpt q)) ≠ pf.Ht2 then
              .error .ErrInvalidSwapProof
            else
              match b with
              | none => .crash
              | some bv =>
                if ptAdd q c.CR (ptNeg q (scalarMul q (modInverse skv q) c.CL)) ≠
                    scalarMul q bv (Hpt q) then
                  .error .ErrIncorrectBalance
                else if bv ≤ 0 then
                  .error .ErrInsufficientBalance
                else if bs2 ≤ 0 then
                  .error .ErrPostiveBStar
                else
                  if bv - bs2 < 0 then
                    .error .ErrInsufficientBalance
                  else
                    .ok
                      { C := c
                        CStar := Enc q (-bs2) rStar pkv
                        ReceiverC := rc
                        ReceiverCStar := Enc q bs2 rStar rpkv
                        ReceiverPk := rpkv
                        T := Commit q (sumRs rs % (q : ℤ)) (bv - bs2) (Gpt q) (Hpt q)
                        Pk := pkv
                        G := Gpt q
                        H := Hpt q
                        Ht1 := scalarMul q (fromTokenId : ℤ) (Hpt q)
                        Ht2 := scalarMul q (toTokenId : ℤ) (Hpt q)
                        FromTokenId := fromTokenId
                        ToTokenId := toTokenId
                        TDivCRprime :=
                          ptAdd q (Commit q (sumRs rs % (q : ℤ)) (bv - bs2) (Gpt q) (Hpt q))
                            (ptNeg q (ptAdd q c.CR (Enc q (-bs2) rStar pkv).CR))
                        CLprimeInv := ptNeg q (ptAdd q c.CL (Enc q (-bs2) rStar pkv).CL)
                        BStarFrom := bs1
                        BStarTo := bs2
                        Fee := pf.Fee
                        RStar := rStar
                        Sk := skv
                        BPrime := bv - bs2
                        RBar := sumRs rs % (q : ℤ)
                        Rs := fun i => rs i
                        Pt1 := scalarMul q skv (scalarMul q (fromTokenId : ℤ) (Hpt q))
                        Pt2 := scalarMul q skv (scalarMul q (toTokenId : ℤ) (Hpt q)) }
  | _, _, _, _, _, _ => .error .ErrInvalidParams

/-- Extract the relation from a successful builder outcome, with an explicit
default for the non-`ok` cases. -/
def resRel (q : ℕ) (r : SwapRes q) (d : SwapProofRelationPart q) : SwapProofRelationPart q :=
  match r with
  | .ok rel => rel
  | _ => d

/-- An arbitrary relation value, used only as the default of `resRel`. -/
def dummyRel (q : ℕ) : SwapProofRelationPart q :=
  { C := ⟨(0, 0), (0, 0)⟩
    CStar := ⟨(0, 0), (0, 0)⟩
    ReceiverC := ⟨(0, 0), (0, 0)⟩
    ReceiverCStar := ⟨(0, 0), (0, 0)⟩
    ReceiverPk := (0, 0)
    T := (0, 0)
    Pk := (0, 0)
    Ht1 := (0, 0)
    Ht2 := (0, 0)
    Pt1 := (0, 0)
    Pt2 := (0, 0)
    G := (0, 0)
    H := (0, 0)
    FromTokenId := 0
    ToTokenId := 0
    TDivCRprime := (0, 0)
    CLprimeInv := (0, 0)
    BStarFrom := 0
    BStarTo := 0
    Fee := none
    RStar := 0
    Sk := 0
    BPrime := 0
    RBar := 0
    Rs := fun _ => 0 }

/-- Modelled from the spec: `ProveSwapPart1` (absent from the given sources)
publishes "copies of all public relation fields needed for independent
re-derivation by the verifier" (spec §3, `SwapProofPart`) — in particular the
part's `BStar1`/`BStar2` carry the relation's `BStarFrom`/`BStarTo`.  The
sigma-transcript fields are produced after relation construction, are never
read by `NewSwapRelationPart2`, and are left absent. -/
def publishPart (q : ℕ) (rel : SwapProofRelationPart q) : SwapProofPart q :=
  { Pt1 := some rel.Pt1
    Pt2 := some rel.Pt2
    A_pk := none
    A_TDivCRprime := none
    A_Pt1 := none
    A_Pt2 := none
    Z_rbar := none
    Z_sk := none
    Z_skInv := none
    RangeProof := none
    BStar1 := some rel.BStarFrom
    BStar2 := some rel.BStarTo
    Fee := rel.Fee
    RStar := some rel.RStar
    CStar := some rel.CStar
    C := some rel.C
    ReceiverCStar := some rel.ReceiverCStar
    ReceiverC := some rel.ReceiverC
    ReceiverPk := some rel.ReceiverPk
    G := some rel.G
    H := some rel.H
    Ht1 := some rel.Ht1
    Ht2 := some rel.Ht2
    TDivCRprime := some rel.TDivCRprime
    CLprimeInv := some rel.CLprimeInv
    T := some rel.T
    Pk := some rel.Pk
    Challenge := none }

/-- The precondition cascade of `NewSwapRelationPart1` in the documented
check order (spec §4.4 and §7): the first violated check's error, `none` when
every check passes.  Stated on present (non-`nil`) inputs; the checks only
read the fields listed here. -/
def part1FirstError (q : ℕ) (c : ElGamalEnc q) (pkv : GroupPt q)
    (bv bsF feev skv : ℤ) (fromTokenId toTokenId : ℕ) : Option SwapErr :=
  if fromTokenId = 0 ∨ toTokenId = 0 ∨ fromTokenId = toTokenId ∨ feev < 0 then
    some .ErrInvalidParams
  else if scalarBaseMul q skv ≠ pkv then
    some .ErrInconsistentPublicKey
  else if ptAdd q c.CR (ptNeg q (scalarMul q (modInverse skv q) c.CL)) ≠
      scalarMul q bv (Hpt q) then
    some .ErrIncorrectBalance
  else if bv ≤ 0 then
    some .ErrInsufficientBalance
  else if bsF ≤ 0 then
    some .ErrPostiveBStar
  else if bv - bsF - feev < 0 then
    some .ErrInsufficientBalance
  else
    none

/-- A party-1 public key in the concrete test group `q = 5`: `g^1`. -/
def cPk : GroupPt 5 := scalarBaseMul 5 1

/-- A counterpart public key in the test group. -/
def cRecPk : GroupPt 5 := scalarBaseMul 5 2

/-- Party 1's balance ciphertext: `Enc(3, 2, cPk)`. -/
def cBalC : ElGamalEnc 5 := Enc 5 3 2 cPk

/-- The counterpart's balance ciphertext (contents irrelevant to part 1). -/
def cRecC : ElGamalEnc 5 := Enc 5 4 1 cRecPk

/-- A constant stream of per-bit blindings used in concrete instantiations. -/
def oneRs : ℕ → ℤ := fun _ => 1

/-- The relation produced by a concrete successful part-1 call in the test
group: balance 3, outgoing amount 1, fee 0, token pair (1, 2). -/
def c1rel : SwapProofRelationPart 5 :=
  resRel 5
    (NewSwapRelationPart1 5 (some cBalC) (some cRecC) (some cPk) (some cRecPk)
      (some 3) (some 1) (some 8) (some 1) 1 2 (some 0) 1 oneRs)
    (dummyRel 5)

/-- Party 1's balance ciphertext in the two-party scenario: `Enc(8, 2, cPk)`. -/
def c5C1 : ElGamalEnc 5 := Enc 5 8 2 cPk

/-- Party 2's balance ciphertext in the two-party scenario: `Enc(8, 3, cPk)`. -/
def c5C2 : ElGamalEnc 5 := Enc 5 8 3 cPk

/-- Part-1 relation of the two-party scenario: balance 8, sends 1, expects 8,
fee 0, token pair (1, 2) — the reference scenario of spec §8. -/
def c5Rel1 : SwapProofRelationPart 5 :=
  resRel 5
    (NewSwapRelationPart1 5 (some c5C1) (some cRecC) (some cPk) (some cRecPk)
      (some 8) (some 1) (some 8) (some 1) 1 2 (some 0) 1 oneRs)
    (dummyRel 5)

/-- Part-2 relation of the two-party scenario, built from party 1's published
part: party 2 has balance 8 and the same token pair. -/
def c5Rel2 : SwapProofRelationPart 5 :=
  resRel 5
    (NewSwapRelationPart2 5 (some c5C2) (some cRecC) (some cPk) (some cRecPk)
      (some 8) (some 1) 1 2 (some (publishPart 5 c5Rel1)) 1 oneRs)
    (dummyRel 5)

/-- Party 1's published part with a tampered `Ht1` (no longer `h^fromTokenId`). -/
def tamperedPart : SwapProofPart 5 :=
  { publishPart 5 c5Rel1 with Ht1 := some ((1, 1) : GroupPt 5) }

lemma foldl_add_eq_sum (f : ℕ → ℤ) : ∀ (l : List ℕ) (c : ℤ),
    l.foldl (fun acc i => acc + f i) c = c + (l.map f).sum := by
  intro l
  induction l with
  | nil => simp
  | cons x xs ih => intro c; simp [ih, add_assoc]

lemma sumRs_eq_finSum (rs : ℕ → ℤ) : sumRs rs = ∑ i : Fin RangeMaxBits, rs i := by
  rw [Fin.sum_univ_eq_sum_range]
  unfold sumRs
  rw [foldl_add_eq_sum, zero_add]
  induction RangeMaxBits with
  | zero => simp
  | succ n ih =>
    rw [List.range_succ, Finset.sum_range_succ, List.map_append, List.sum_append, ih]
    simp

/-- Claim C1: every successful `NewSwapRelationPart1` call returns a relation
whose `BPrime` equals `b - bStarFrom - fee` and is non-negative, whose `RBar`
is the sum of the `RangeMaxBits` per-bit blindings `Rs` modulo the group
order, and whose `T` is the Pedersen commitment `g^RBar · h^BPrime`. -/
theorem part1_success_invariant (q : ℕ) (c rc : ElGamalEnc q) (pkv rpkv : GroupPt q)
    (bv bsF bsT skv feev rStar : ℤ) (ft tt : ℕ) (rs : ℕ → ℤ)
    (rel : SwapProofRelationPart q)
    (h : NewSwapRelationPart1 q (some c) (some rc) (some pkv) (some rpkv) (some bv)
      (some bsF) (some bsT) (some skv) ft tt (some feev) rStar rs = SwapRes.ok rel) :
    rel.BPrime = bv - bsF - feev ∧ 0 ≤ rel.BPrime ∧
    rel.RBar = (∑ i, rel.Rs i) % (q : ℤ) ∧
    rel.T = Commit q rel.RBar rel.BPrime (Gpt q) (Hpt q) := by
  simp only [NewSwapRelationPart1] at h
  repeat' (split at h <;> try (cases h))
  exact ⟨rfl, by dsimp only; omega, by simp [sumRs_eq_finSum], rfl⟩

/-- Witness for C1: the invariant at a concrete successful call (balance 3,
amount 1, fee 0, token pair (1, 2) in the test group of order 5). -/
theorem part1_success_invariant_witness :
    c1rel.BPrime = 3 - 1 - 0 ∧ 0 ≤ c1rel.BPrime ∧
    c1rel.RBar = (∑ i, c1rel.Rs i) % ((5 : ℕ) : ℤ) ∧
    c1rel.T = Commit 5 c1rel.RBar c1rel.BPrime (Gpt 5) (Hpt 5) :=
  part1_success_invariant 5 cBalC cRecC cPk cRecPk 3 1 8 1 0 1 1 2 oneRs c1rel rfl

/-- Claim C2: past the parameter and public-key checks, `NewSwapRelationPart1`
returns `ErrIncorrectBalance` exactly when `CR + (-(sk⁻¹ · CL))` differs from
`b · H`; when they coincide the claimed balance is accepted (the call never
yields `ErrIncorrectBalance`). -/
theorem part1_balance_check_iff (q : ℕ) (c rc : ElGamalEnc q) (pkv rpkv : GroupPt q)
    (bv bsF bsT skv feev rStar : ℤ) (ft tt : ℕ) (rs : ℕ → ℤ)
    (hparam : ¬(ft = 0 ∨ tt = 0 ∨ ft = tt ∨ feev < 0))
    (hpk : scalarBaseMul q skv = pkv) :
    NewSwapRelationPart1 q (some c) (some rc) (some pkv) (some rpkv) (some bv) (some bsF)
      (some bsT) (some skv) ft tt (some feev) rStar rs =
      SwapRes.error SwapErr.ErrIncorrectBalance ↔
    ptAdd q c.CR (ptNeg q (scalarMul q (modInverse skv q) c.CL)) ≠
      scalarMul q bv (Hpt q) := by
  simp only [NewSwapRelationPart1]
  rw [if_neg hparam, if_neg (by simp [hpk])]
  split_ifs <;> simp_all

/-- Witness for C2: the balance-check equivalence at a concrete call whose
ciphertext does encrypt the claimed balance 3. -/
theorem part1_balance_check_iff_witness :
    (NewSwapRelationPart1 5 (some cBalC) (some cRecC) (some cPk) (some cRecPk) (some 3)
      (some 1) (some 8) (some 1) 1 2 (some 0) 1 oneRs =
      SwapRes.error SwapErr.ErrIncorrectBalance ↔
    ptAdd 5 cBalC.CR (ptNeg 5 (scalarMul 5 (modInverse 1 5) cBalC.CL)) ≠
      scalarMul 5 3 (Hpt 5)) :=
  part1_balance_check_iff 5 cBalC cRecC cPk cRecPk 3 1 8 1 0 1 1 2 oneRs
    (by decide) rfl

/-- Claim C4: on success `NewSwapRelationPart1` sets `CStar` to the encryption
of `-(bStarFrom+fee)` under `pk` with randomness `RStar`, `ReceiverCStar` to
the encryption of `bStarFrom+fee` under `receiverPk` with the same `RStar`,
`TDivCRprime` to `T - (C.CR + CStar.CR)`, `CLprimeInv` to `-(C.CL + CStar.CL)`,
`Ht1 = h^fromTokenId`, `Ht2 = h^toTokenId`, `Pt1 = Ht1^sk`, `Pt2 = Ht2^sk`. -/
theorem part1_success_fields (q : ℕ) (c rc : ElGamalEnc q) (pkv rpkv : GroupPt q)
    (bv bsF bsT skv feev rStar : ℤ) (ft tt : ℕ) (rs : ℕ → ℤ)
    (rel : SwapProofRelationPart q)
    (h : NewSwapRelationPart1 q (some c) (some rc) (some pkv) (some rpkv) (some bv)
      (some bsF) (some bsT) (some skv) ft tt (some feev) rStar rs = SwapRes.ok rel) :
    rel.CStar = Enc q (-(bsF + feev)) rStar pkv ∧
    rel.ReceiverCStar = Enc q (bsF + feev) rStar rpkv ∧
    rel.RStar = rStar ∧
    rel.TDivCRprime = ptAdd q rel.T (ptNeg q (ptAdd q c.CR rel.CStar.CR)) ∧
    rel.CLprimeInv = ptNeg q (ptAdd q c.CL rel.CStar.CL) ∧
    rel.Ht1 = scalarMul q (ft : ℤ) (Hpt q) ∧
    rel.Ht2 = scalarMul q (tt : ℤ) (Hpt q) ∧
    rel.Pt1 = scalarMul q skv rel.Ht1 ∧
    rel.Pt2 = scalarMul q skv rel.Ht2 := by
  simp only [NewSwapRelationPart1] at h
  repeat' (split at h <;> try (cases h))
  exact ⟨rfl, rfl, rfl, rfl, rfl, rfl, rfl, rfl, rfl⟩

/-- Witness for C4: the success fields at the concrete part-1 call behind
`c1rel`. -/
theorem part1_success_fields_witness :
    c1rel.CStar = Enc 5 (-(1 + 0)) 1 cPk ∧
    c1rel.ReceiverCStar = Enc 5 (1 + 0) 1 cRecPk ∧
    c1rel.RStar = 1 ∧
    c1rel.TDivCRprime = ptAdd 5 c1rel.T (ptNeg 5 (ptAdd 5 cBalC.CR c1rel.CStar.CR)) ∧
    c1rel.CLprimeInv = ptNeg 5 (ptAdd 5 cBalC.CL c1rel.CStar.CL) ∧
    c1rel.Ht1 = scalarMul 5 ((1 : ℕ) : ℤ) (Hpt 5) ∧
    c1rel.Ht2 = scalarMul 5 ((2 : ℕ) : ℤ) (Hpt 5) ∧
    c1rel.Pt1 = scalarMul 5 1 c1rel.Ht1 ∧
    c1rel.Pt2 = scalarMul 5 1 c1rel.Ht2 :=
  part1_success_fields 5 cBalC cRecC cPk cRecPk 3 1 8 1 0 1 1 2 oneRs c1rel rfl

/-- Counterexample to C3 as stated: with every documented precondition
satisfied except that the claimed balance `b` is nil, the earliest violated
check per the claim is the nil-parameter check, so the claim demands
`ErrInvalidParams`; the code instead dereferences the nil balance (a crash),
because line 107 of `swapTypes.go` does not nil-check `b`. -/
theorem part1_nil_balance_breaks_order :
    NewSwapRelationPart1 5 (some cBalC) (some cRecC) (some cPk) (some cRecPk) none
      (some 1) (some 8) (some 1) 1 2 (some 0) 1 oneRs ≠
      SwapRes.error SwapErr.ErrInvalidParams := by
  have h : NewSwapRelationPart1 5 (some cBalC) (some cRecC) (some cPk) (some cRecPk) none
      (some 1) (some 8) (some 1) 1 2 (some 0) 1 oneRs = SwapRes.crash := rfl
  rw [h]
  intro hc
  exact SwapRes.noConfusion hc

/-- Claim C3 (amended): `NewSwapRelationPart1` fails fast in the documented
order — a nil input among `C`, `receiverC`, `pk`, `receiverPk`, `bStarFrom`,
`bStarTo`, `sk`, `fee` (the claimed balance `b` is not nil-checked) or a
violated token/fee condition yields `ErrInvalidParams`; with those inputs
present, the call returns exactly the error of the first violated check in
the order `InvalidParams`, `InconsistentPublicKey`, `IncorrectBalance`,
`InsufficientBalance (b ≤ 0)`, `PostiveBStar`, `InsufficientBalance
(bPrime < 0)`, and succeeds when no check is violated. -/
theorem part1_error_order (q : ℕ) :
    (∀ (C rc : Option (ElGamalEnc q)) (pk rpk : Option (GroupPt q))
      (b bsF bsT sk fee : Option ℤ) (ft tt : ℕ) (rStar : ℤ) (rs : ℕ → ℤ),
      C = none ∨ rc = none ∨ pk = none ∨ rpk = none ∨ bsF = none ∨ bsT = none ∨
        sk = none ∨ fee = none →
      NewSwapRelationPart1 q C rc pk rpk b bsF bsT sk ft tt fee rStar rs =
        SwapRes.error SwapErr.ErrInvalidParams) ∧
    (∀ (c rc : ElGamalEnc q) (pkv rpkv : GroupPt q) (bv bsF bsT skv feev rStar : ℤ)
      (ft tt : ℕ) (rs : ℕ → ℤ),
      (∀ e, NewSwapRelationPart1 q (some c) (some rc) (some pkv) (some rpkv) (some bv)
          (some bsF) (some bsT) (some skv) ft tt (some feev) rStar rs =
          SwapRes.error e ↔
        part1FirstError q c pkv bv bsF feev skv ft tt = some e) ∧
      (part1FirstError q c pkv bv bsF feev skv ft tt = none →
        ∃ rel, NewSwapRelationPart1 q (some c) (some rc) (some pkv) (some rpkv) (some bv)
          (some bsF) (some bsT) (some skv) ft tt (some feev) rStar rs =
          SwapRes.ok rel)) := by
  constructor
  · intro C rc pk rpk b bsF bsT sk fee ft tt rStar rs h
    rcases C with _ | c <;> rcases rc with _ | rc <;> rcases pk with _ | pk <;>
      rcases rpk with _ | rpk <;> rcases bsF with _ | bsF <;> rcases bsT with _ | bsT <;>
      rcases sk with _ | sk <;> rcases fee with _ | fee <;>
      first | rfl | simp_all
  · intro c rc pkv rpkv bv bsF bsT skv feev rStar ft tt rs
    constructor
    · intro e
      simp only [NewSwapRelationPart1, part1FirstError]
      split_ifs <;> simp_all
    · intro hnone
      simp only [part1FirstError] at hnone
      simp only [NewSwapRelationPart1]
      split_ifs at hnone ⊢ <;> simp_all

/-- Witness for C3 (amended): a nil `receiverPk` yields `ErrInvalidParams`;
at a concrete present-input call with `fromTokenId = 0` the result is the
cascade's first error (`ErrInvalidParams`); and at the concrete passing call
the cascade is empty and the builder succeeds. -/
theorem part1_error_order_witness :
    NewSwapRelationPart1 5 (some cBalC) (some cRecC) (some cPk) none (some 3) (some 1)
      (some 8) (some 1) 1 2 (some 0) 1 oneRs =
      SwapRes.error SwapErr.ErrInvalidParams ∧
    (NewSwapRelationPart1 5 (some cBalC) (some cRecC) (some cPk) (some cRecPk) (some 3)
      (some 1) (some 8) (some 1) 0 2 (some 0) 1 oneRs =
      SwapRes.error SwapErr.ErrInvalidParams ↔
      part1FirstError 5 cBalC cPk 3 1 0 1 0 2 = some SwapErr.ErrInvalidParams) ∧
    (∃ rel, NewSwapRelationPart1 5 (some cBalC) (some cRecC) (some cPk) (some cRecPk)
      (some 3) (some 1) (some 8) (some 1) 1 2 (some 0) 1 oneRs = SwapRes.ok rel) :=
  ⟨(part1_error_order 5).1 (some cBalC) (some cRecC) (some cPk) none (some 3) (some 1)
      (some 8) (some 1) (some 0) 1 2 1 oneRs
      (Or.inr (Or.inr (Or.inr (Or.inl rfl)))),
   ((part1_error_order 5).2 cBalC cRecC cPk cRecPk 3 1 8 1 0 1 0 2 oneRs).1
      SwapErr.ErrInvalidParams,
   ((part1_error_order 5).2 cBalC cRecC cPk cRecPk 3 1 8 1 0 1 1 2 oneRs).2 (by decide)⟩

/-- Counterexample to C8 as stated: a call whose only nil pointer-like input
is the claimed balance `b` does not return `ErrInvalidParams` — the guard of
line 107 never inspects `b`, and the call crashes at the balance computation
instead. -/
theorem part1_nil_balance_not_param_checked :
    NewSwapRelationPart1 5 (some cBalC) (some cRecC) (some cPk) (some cRecPk) none
      (some 2) (some 3) (some 1) 2 3 (some 1) 2 oneRs ≠
      SwapRes.error SwapErr.ErrInvalidParams := by
  have h : NewSwapRelationPart1 5 (some cBalC) (some cRecC) (some cPk) (some cRecPk) none
      (some 2) (some 3) (some 1) 2 3 (some 1) 2 oneRs = SwapRes.crash := rfl
  rw [h]
  intro hc
  exact SwapRes.noConfusion hc

/-- Claim C8 (amended): a nil input among `C`, `receiverC`, `pk`,
`receiverPk`, `bStarFrom`, `bStarTo`, `sk`, `fee` makes `NewSwapRelationPart1`
return `ErrInvalidParams` before any cryptographic work; the claimed balance
`b` is the one pointer-like input that is not nil-checked — with everything
else valid, a nil `b` passes the parameter and public-key checks and the call
crashes on a nil dereference at the balance computation. -/
theorem part1_nil_checks_except_balance (q : ℕ) :
    (∀ (C rc : Option (ElGamalEnc q)) (pk rpk : Option (GroupPt q))
      (b bsF bsT sk fee : Option ℤ) (ft tt : ℕ) (rStar : ℤ) (rs : ℕ → ℤ),
      C = none ∨ rc = none ∨ pk = none ∨ rpk = none ∨ bsF = none ∨ bsT = none ∨
        sk = none ∨ fee = none →
      NewSwapRelationPart1 q C rc pk rpk b bsF bsT sk ft tt fee rStar rs =
        SwapRes.error SwapErr.ErrInvalidParams) ∧
    (∀ (c rc : ElGamalEnc q) (pkv rpkv : GroupPt q) (bsF bsT skv feev rStar : ℤ)
      (ft tt : ℕ) (rs : ℕ → ℤ),
      ¬(ft = 0 ∨ tt = 0 ∨ ft = tt ∨ feev < 0) →
      scalarBaseMul q skv = pkv →
      NewSwapRelationPart1 q (some c) (some rc) (some pkv) (some rpkv) none (some bsF)
        (some bsT) (some skv) ft tt (some feev) rStar rs = SwapRes.crash) := by
  constructor
  · intro C rc pk rpk b bsF bsT sk fee ft tt rStar rs h
    rcases C with _ | c <;> rcases rc with _ | rc <;> rcases pk with _ | pk <;>
      rcases rpk with _ | rpk <;> rcases bsF with _ | bsF <;> rcases bsT with _ | bsT <;>
      rcases sk with _ | sk <;> rcases fee with _ | fee <;>
      first | rfl | simp_all
  · intro c rc pkv rpkv bsF bsT skv feev rStar ft tt rs hparam hpk
    simp only [NewSwapRelationPart1]
    rw [if_neg hparam, if_neg (by simp [hpk])]

/-- Witness for C8 (amended): a nil `pk` yields `ErrInvalidParams`, and the
same call with only `b` nil crashes instead of erroring. -/
theorem part1_nil_checks_except_balance_witness :
    NewSwapRelationPart1 5 (some cBalC) (some cRecC) none (some cRecPk) (some 3) (some 1)
      (some 8) (some 1) 1 2 (some 0) 1 oneRs =
      SwapRes.error SwapErr.ErrInvalidParams ∧
    NewSwapRelationPart1 5 (some cBalC) (some cRecC) (some cPk) (some cRecPk) none
      (some 1) (some 8) (some 1) 1 2 (some 0) 1 oneRs = SwapRes.crash :=
  ⟨(part1_nil_checks_except_balance 5).1 (some cBalC) (some cRecC) none (some cRecPk)
      (some 3) (some 1) (some 8) (some 1) (some 0) 1 2 1 oneRs
      (Or.inr (Or.inr (Or.inl rfl))),
   (part1_nil_checks_except_balance 5).2 cBalC cRecC cPk cRecPk 1 8 1 0 1 1 2 oneRs
      (by decide) rfl⟩

/-- Counterexample to C5 as stated: in the concrete two-party scenario both
builder calls succeed, yet the part-2 relation's `BStarFrom` is 1 (party 1's
`BStarFrom`, published as `BStar1`) while party 1's `BStarTo` is 8 — the
claimed cross-part equality fails. -/
theorem part2_bstarfrom_ne_part1_bstarto :
    NewSwapRelationPart1 5 (some c5C1) (some cRecC) (some cPk) (some cRecPk) (some 8)
      (some 1) (some 8) (some 1) 1 2 (some 0) 1 oneRs = SwapRes.ok c5Rel1 ∧
    NewSwapRelationPart2 5 (some c5C2) (some cRecC) (some cPk) (some cRecPk) (some 8)
      (some 1) 1 2 (some (publishPart 5 c5Rel1)) 1 oneRs = SwapRes.ok c5Rel2 ∧
    c5Rel2.BStarFrom ≠ c5Rel1.BStarTo ∧
    c5Rel1.BStarTo = 8 ∧ c5Rel2.BStarFrom = 1 :=
  ⟨rfl, rfl, by decide, by decide, by decide⟩

/-- Claim C5 (amended): the second party's builder treats party 1's `BStarTo`
(published as `BStar2`) as the amount debited from its own balance, and the
part-2 relation copies party 1's amounts verbatim — its `BStarFrom` equals
party 1's `BStarFrom` (published as `BStar1`), not party 1's `BStarTo`, and
its `BStarTo` equals party 1's `BStarTo`. -/
theorem part2_copies_amounts (q : ℕ) (rel1 : SwapProofRelationPart q)
    (c rc : ElGamalEnc q) (pkv rpkv : GroupPt q) (bv skv rStar : ℤ) (ft tt : ℕ)
    (rs : ℕ → ℤ) (rel2 : SwapProofRelationPart q)
    (h : NewSwapRelationPart2 q (some c) (some rc) (some pkv) (some rpkv) (some bv)
      (some skv) ft tt (some (publishPart q rel1)) rStar rs = SwapRes.ok rel2) :
    rel2.BStarFrom = rel1.BStarFrom ∧ rel2.BStarTo = rel1.BStarTo ∧
    rel2.BPrime = bv - rel1.BStarTo ∧ rel2.Fee = rel1.Fee := by
  simp only [NewSwapRelationPart2, publishPart] at h
  repeat' (split at h <;> try (cases h))
  exact ⟨rfl, rfl, rfl, rfl⟩

/-- Witness for C5 (amended): the copied amounts at the concrete two-party
scenario behind `c5Rel1` and `c5Rel2`. -/
theorem part2_copies_amounts_witness :
    c5Rel2.BStarFrom = c5Rel1.BStarFrom ∧ c5Rel2.BStarTo = c5Rel1.BStarTo ∧
    c5Rel2.BPrime = 8 - c5Rel1.BStarTo ∧ c5Rel2.Fee = c5Rel1.Fee :=
  part2_copies_amounts 5 c5Rel1 c5C2 cRecC cPk cRecPk 8 1 1 1 2 oneRs c5Rel2 rfl

/-- Claim C6: the fee is charged on the initiating leg only —
`NewSwapRelationPart1` subtracts the fee from `bPrime` and encrypts
`bStarFrom + fee` into both delta ciphertexts, while `NewSwapRelationPart2`
computes its `bPrime` as `b - proof.BStar2` with no fee term and copies its
`Fee` field verbatim from the first party's published part. -/
theorem fee_initiating_leg_only (q : ℕ) :
    (∀ (c rc : ElGamalEnc q) (pkv rpkv : GroupPt q) (bv bsF bsT skv feev rStar : ℤ)
      (ft tt : ℕ) (rs : ℕ → ℤ) (rel : SwapProofRelationPart q),
      NewSwapRelationPart1 q (some c) (some rc) (some pkv) (some rpkv) (some bv)
        (some bsF) (some bsT) (some skv) ft tt (some feev) rStar rs = SwapRes.ok rel →
      rel.BPrime = bv - bsF - feev ∧
      rel.CStar = Enc q (-(bsF + feev)) rStar pkv ∧
      rel.ReceiverCStar = Enc q (bsF + feev) rStar rpkv ∧
      rel.Fee = some feev) ∧
    (∀ (c rc : ElGamalEnc q) (pkv rpkv : GroupPt q) (bv skv rStar : ℤ) (ft tt : ℕ)
      (pf : SwapProofPart q) (bs2 : ℤ) (rs : ℕ → ℤ) (rel : SwapProofRelationPart q),
      pf.BStar2 = some bs2 →
      NewSwapRelationPart2 q (some c) (some rc) (some pkv) (some rpkv) (some bv)
        (some skv) ft tt (some pf) rStar rs = SwapRes.ok rel →
      rel.BPrime = bv - bs2 ∧ rel.Fee = pf.Fee) := by
  constructor
  · intro c rc pkv rpkv bv bsF bsT skv feev rStar ft tt rs rel h
    simp only [NewSwapRelationPart1] at h
    repeat' (split at h <;> try (cases h))
    exact ⟨rfl, rfl, rfl, rfl⟩
  · intro c rc pkv rpkv bv skv rStar ft tt pf bs2 rs rel h2 h
    simp only [NewSwapRelationPart2] at h
    repeat' (split at h <;> try (cases h))
    simp_all

/-- Witness for C6: both legs at the concrete calls behind `c1rel` (fee 0 on
the initiating leg) and `c5Rel2` (fee copied from party 1's part). -/
theorem fee_initiating_leg_only_witness :
    (c1rel.BPrime = 3 - 1 - 0 ∧ c1rel.CStar = Enc 5 (-(1 + 0)) 1 cPk ∧
      c1rel.ReceiverCStar = Enc 5 (1 + 0) 1 cRecPk ∧ c1rel.Fee = some 0) ∧
    (c5Rel2.BPrime = 8 - 8 ∧ c5Rel2.Fee = (publishPart 5 c5Rel1).Fee) :=
  ⟨(fee_initiating_leg_only 5).1 cBalC cRecC cPk cRecPk 3 1 8 1 0 1 1 2 oneRs c1rel rfl,
   (fee_initiating_leg_only 5).2 c5C2 cRecC cPk cRecPk 8 1 1 1 2 (publishPart 5 c5Rel1)
      8 oneRs c5Rel2 rfl rfl⟩

/-- Claim C7: past the parameter and public-key checks,
`NewSwapRelationPart2` returns `ErrInvalidSwapProof` whenever the `Ht1`/`Ht2`
recomputed from the given token ids differ from the ones embedded in party
1's part — a tampered part is rejected. -/
theorem part2_rejects_tampered_ht (q : ℕ) (c rc : ElGamalEnc q) (pkv rpkv : GroupPt q)
    (b : Option ℤ) (skv rStar : ℤ) (ft tt : ℕ) (pf : SwapProofPart q)
    (pht1 pht2 : GroupPt q) (bs1 bs2 : ℤ) (rs : ℕ → ℤ)
    (hht1 : pf.Ht1 = some pht1) (hht2 : pf.Ht2 = some pht2)
    (hbs1 : pf.BStar1 = some bs1) (hbs2 : pf.BStar2 = some bs2)
    (htok : ¬(ft = 0 ∨ tt = 0 ∨ ft = tt)) (hb1 : 0 < bs1) (hb2 : 0 < bs2)
    (hpk : scalarBaseMul q skv = pkv)
    (htamper : pht1 ≠ scalarMul q (ft : ℤ) (Hpt q) ∨
      pht2 ≠ scalarMul q (tt : ℤ) (Hpt q)) :
    NewSwapRelationPart2 q (some c) (some rc) (some pkv) (some rpkv) b (some skv) ft tt
      (some pf) rStar rs = SwapRes.error SwapErr.ErrInvalidSwapProof := by
  simp only [NewSwapRelationPart2, hbs1, hbs2]
  rw [if_neg (by simp only [hht1, hht2]; simpa using htok), if_neg (by omega),
    if_neg (by omega), if_neg (by simp [hpk]), if_pos]
  rcases htamper with hl | hr
  · left
    rw [hht1]
    simp only [ne_eq, Option.some.injEq]
    exact fun hh => hl hh.symm
  · right
    rw [hht2]
    simp only [ne_eq, Option.some.injEq]
    exact fun hh => hr hh.symm

/-- Witness for C7: party 1's published part with `Ht1` overwritten by a
point that is not `h^fromTokenId` is rejected with `ErrInvalidSwapProof`. -/
theorem part2_rejects_tampered_ht_witness :
    NewSwapRelationPart2 5 (some c5C2) (some cRecC) (some cPk) (some cRecPk) (some 8)
      (some 1) 1 2 (some tamperedPart) 1 oneRs =
      SwapRes.error SwapErr.ErrInvalidSwapProof :=
  part2_rejects_tampered_ht 5 c5C2 cRecC cPk cRecPk (some 8) 1 1 1 2 tamperedPart
    ((1, 1) : GroupPt 5) c5Rel1.Ht2 c5Rel1.BStarFrom c5Rel1.BStarTo oneRs
    rfl rfl rfl rfl (by decide) (by decide) (by decide) rfl (Or.inl (by decide))

/-- Claim C9: `NewSwapRelationPart1` accepts a full-balance spend — with the
parameter, public-key, and balance checks passing, `bStarFrom > 0` and
`b = bStarFrom + fee`, the call succeeds and the relation's `BPrime` is zero
(the insufficient-balance rejection only fires for `bPrime < 0`). -/
theorem part1_full_spend_ok (q : ℕ) (c rc : ElGamalEnc q) (pkv rpkv : GroupPt q)
    (bv bsF feev bsT skv rStar : ℤ) (ft tt : ℕ) (rs : ℕ → ℤ)
    (hparam : ¬(ft = 0 ∨ tt = 0 ∨ ft = tt ∨ feev < 0))
    (hpk : scalarBaseMul q skv = pkv)
    (hbal : ptAdd q c.CR (ptNeg q (scalarMul q (modInverse skv q) c.CL)) =
      scalarMul q bv (Hpt q))
    (hbsF : 0 < bsF)
    (hfull : bv = bsF + feev) :
    ∃ rel, NewSwapRelationPart1 q (some c) (some rc) (some pkv) (some rpkv) (some bv)
      (some bsF) (some bsT) (some skv) ft tt (some feev) rStar rs = SwapRes.ok rel ∧
      rel.BPrime = 0 := by
  have hfee : ¬ feev < 0 := fun hf => hparam (Or.inr (Or.inr (Or.inr hf)))
  simp only [NewSwapRelationPart1]
  rw [if_neg hparam, if_neg (by simp [hpk]), if_neg (by simp [hbal]),
    if_neg (by omega), if_neg (by omega), if_neg (by omega)]
  exact ⟨_, rfl, by dsimp only; omega⟩

/-- Witness for C9: balance 3, amount 3, fee 0 — the whole balance is spent
and the builder succeeds with `BPrime = 0`. -/
theorem part1_full_spend_ok_witness :
    ∃ rel, NewSwapRelationPart1 5 (some cBalC) (some cRecC) (some cPk) (some cRecPk)
      (some 3) (some 3) (some 8) (some 1) 1 2 (some 0) 1 oneRs = SwapRes.ok rel ∧
      rel.BPrime = 0 :=
  part1_full_spend_ok 5 cBalC cRecC cPk cRecPk 3 3 0 8 1 1 1 2 oneRs
    (by decide) rfl (by decide) (by decide) (by decide)

/-- Claim C10: `NewSwapRelationPart2` never returns `ErrPostiveBStar` — the
guard of lines 200–204 already returns `ErrInvalidParams` whenever
`proof.BStar2 ≤ 0` (or the proof is nil), so the later `ErrPostiveBStar`
branch at line 233 is unreachable. -/
theorem part2_never_positive_bstar_error (q : ℕ) (C rc : Option (ElGamalEnc q))
    (pk rpk : Option (GroupPt q)) (b sk : Option ℤ) (ft tt : ℕ)
    (pf : Option (SwapProofPart q)) (rStar : ℤ) (rs : ℕ → ℤ) :
    NewSwapRelationPart2 q C rc pk rpk b sk ft tt pf rStar rs ≠
      SwapRes.error SwapErr.ErrPostiveBStar := by
  unfold NewSwapRelationPart2
  repeat' split
  all_goals simp_all
